import Mathlib

/-!
Verification of `xla/service/cpu/runtime/all_to_all_thunk.cc` (OpenXLA, CPU runtime).

The file shallowly embeds the `AllToAllThunk` class: its `Create` factory and its
`Execute` method.  Pieces of the repository that the fragment uses but that are not
part of the source file (the `CollectiveThunk` base class helpers `GetOpDeviceMemory`,
`ExecuteWithCommunicator`, the shape accessors, `DefaultCollectiveTimeout`,
`ShapeUtil::ByteSizeOf`, and the communicator's exchange semantics) are modelled from
the specification and carry a doc comment saying so.
-/

namespace XlaCpu

deriving instance DecidableEq for Except

/-- An element shape: the code only consumes a shape through `ShapeUtil::ByteSizeOf`,
which the spec defines as `elementCount × elementByteWidth`. -/
structure Shape where
  elementCount : Nat
  elementByteWidth : Nat
deriving DecidableEq

/-- Modelled from the spec: `ShapeUtil::ByteSizeOf` (not part of the fragment) computes
the per-destination byte size from the element shape as
`elementCount × elementByteWidth`. -/
def ShapeUtil.ByteSizeOf (s : Shape) : Nat :=
  s.elementCount * s.elementByteWidth

/-- A `BufferAllocation::Slice`: a symbolic operand descriptor, resolved to a concrete
memory region at execution time. -/
structure BufferSlice where
  allocationIndex : Nat
  offset : Nat
  size : Nat
deriving DecidableEq

/-- `CollectiveThunk::OpBuffers`: the ordered source and destination operand descriptors
and their element shapes. -/
structure OpBuffers where
  source_buffers : List BufferSlice
  source_shapes : List Shape
  destination_buffers : List BufferSlice
  destination_shapes : List Shape
deriving DecidableEq

/-- `Thunk::Info`: human-readable identity, for diagnostics only. -/
structure Info where
  op_name : String
  module_name : String
  module_id : Nat
deriving DecidableEq

/-- Modelled from the spec: `CollectiveThunk::OpParams` (not part of the fragment)
identifies the collective group / configuration. -/
structure OpParams where
  op_id : Int
  group_id : Nat
deriving DecidableEq

/-- The kinds of failure the design distinguishes: buffer-resolution failure,
group-formation failure, communicator timeout, transport error. -/
inductive ErrorKind where
  | resolution
  | groupFormation
  | timeout
  | transport
deriving DecidableEq

/-- An `absl::Status` error value: a kind together with a message. -/
structure XlaError where
  kind : ErrorKind
  message : String
deriving DecidableEq

/-- A resolved device memory region; `addr` plays the role of the region's
base pointer (what the C++ code reads with `.opaque()`). -/
structure DeviceMemoryBase where
  addr : Nat
deriving DecidableEq

/-- `CollectiveThunk::OpDeviceMemory`: the resolved source and destination regions. -/
structure OpDeviceMemory where
  source : List DeviceMemoryBase
  destination : List DeviceMemoryBase
deriving DecidableEq

/-- A rendezvous key: identifies the execution instance and participant group of one
collective call. -/
structure RendezvousKey where
  run_id : Nat
  group_id : Nat
deriving DecidableEq

/-- A communicator bound to a participant group.  Its `allToAll` field is the external
collective primitive `AllToAll(key, byteSize, inputs, outputs, timeout)`; pointers are
modelled by the `Nat` addresses of the resolved regions and the timeout by a `Nat`
duration. -/
structure CollectivesCommunicator where
  allToAll : RendezvousKey → Nat → List Nat → List Nat → Nat → Except XlaError Unit

/-- Modelled from the spec: the buffer resolver (buffer-assignment subsystem, not part
of the fragment) maps a symbolic slice to a live memory region, or fails for an
unassigned slice (`none`). -/
structure BufferAllocations where
  resolve : BufferSlice → Option DeviceMemoryBase

/-- Modelled from the spec: `Thunk::CollectiveExecuteParams` together with the base
class's communicator acquisition.  Deriving the rendezvous key and obtaining the bound
communicator may fail (group-formation failure); otherwise it yields the key and the
borrowed communicator. -/
structure CollectiveExecuteParams where
  rendezvous : Except XlaError (RendezvousKey × CollectivesCommunicator)

/-- `Thunk::ExecuteParams`: the execution context handed to `Execute`. -/
structure ExecuteParams where
  buffer_allocations : BufferAllocations
  collective_params : CollectiveExecuteParams

/-- The `AllToAllThunk` object: `Kind::kAllToAll` plus the bound immutable metadata. -/
structure AllToAllThunk where
  info : Info
  op_params : OpParams
  op_buffers : OpBuffers
deriving DecidableEq

/-- `AllToAllThunk::Create`: wraps the constructor, which only binds the provided
metadata; the `absl::StatusOr` return is always the `ok` case. -/
def AllToAllThunk.Create (info : Info) (op_params : OpParams) (op_buffers : OpBuffers) :
    Except XlaError AllToAllThunk :=
  .ok ⟨info, op_params, op_buffers⟩

/-- Modelled from the spec: the base-class accessor for the `i`-th destination element
shape (`op_buffers.destination_shapes[i]`).  An out-of-range index has no defined
value, which the embedding records as `none`. -/
def AllToAllThunk.destinationShapeAt (t : AllToAllThunk) (i : Nat) : Option Shape :=
  t.op_buffers.destination_shapes.get? i

/-- Modelled from the spec: `CollectiveThunk::GetOpDeviceMemory` resolves every source
and every destination slice through the execution context's buffer allocations; if any
operand cannot be mapped to memory it reports a resolution failure. -/
def GetOpDeviceMemory (t : AllToAllThunk) (params : ExecuteParams) :
    Except XlaError OpDeviceMemory :=
  match t.op_buffers.source_buffers.mapM params.buffer_allocations.resolve,
        t.op_buffers.destination_buffers.mapM params.buffer_allocations.resolve with
  | some src, some dst => .ok ⟨src, dst⟩
  | _, _ => .error ⟨.resolution, "failed to resolve buffer slice"⟩

/-- Modelled from the spec: the fixed default collective timeout applied uniformly to
every collective call; no per-call override exists at this layer. -/
def DefaultCollectiveTimeout : Nat := 30 * 60

/-- One invocation of the communicator's `AllToAll` primitive, as observed at the call
site: the rendezvous key, the byte size, the source and destination pointer lists, and
the timeout. -/
structure AllToAllCall where
  key : RendezvousKey
  byteSize : Nat
  input_buffers : List Nat
  output_buffers : List Nat
  timeout : Nat
deriving DecidableEq

/-- The state of the returned execution event once it resolves: completed, or failed
with the underlying error. -/
inductive ExecuteEvent where
  | ok
  | failed (e : XlaError)
deriving DecidableEq

/-- The observable outcome of one `Execute` invocation: the resolved event together
with the list of `AllToAll` invocations made on the communicator, or the undefined
out-of-range access of a destination shape (no defined event results). -/
inductive ExecOutcome where
  | event (ev : ExecuteEvent) (calls : List AllToAllCall)
  | indexOutOfRange
deriving DecidableEq

/-- Modelled from the spec: `CollectiveThunk::ExecuteWithCommunicator` derives the
rendezvous key and obtains the communicator for the group (failing the event if the
group cannot be formed), runs the op body, and translates the body's status into the
returned event.  The body returns `none` when it performs an undefined out-of-range
access, and otherwise its status plus the communicator invocations it made. -/
def ExecuteWithCommunicator (cp : CollectiveExecuteParams)
    (body : RendezvousKey → CollectivesCommunicator →
      Option (Except XlaError Unit × List AllToAllCall)) : ExecOutcome :=
  match cp.rendezvous with
  | .error e => .event (.failed e) []
  | .ok (key, comm) =>
    match body key comm with
    | none => .indexOutOfRange
    | some (.error e, calls) => .event (.failed e) calls
    | some (.ok _, calls) => .event .ok calls

/-- `AllToAllThunk::Execute`: resolve the operand device memory (failing the event
immediately on a resolution error), then run under the communicator: read the first
destination shape, collect the resolved source and destination pointers in operand
order, and invoke `AllToAll` once with the byte size of that shape and the default
collective timeout, propagating its status. -/
def AllToAllThunk.Execute (t : AllToAllThunk) (params : ExecuteParams) : ExecOutcome :=
  match GetOpDeviceMemory t params with
  | .error e => .event (.failed e) []
  | .ok data =>
    ExecuteWithCommunicator params.collective_params (fun key comm =>
      match t.destinationShapeAt 0 with
      | none => none
      | some shape =>
        let input_buffers := data.source.map DeviceMemoryBase.addr
        let output_buffers := data.destination.map DeviceMemoryBase.addr
        let byteSize := ShapeUtil.ByteSizeOf shape
        some (comm.allToAll key byteSize input_buffers output_buffers
                DefaultCollectiveTimeout,
              [⟨key, byteSize, input_buffers, output_buffers,
                DefaultCollectiveTimeout⟩]))

/-- The communicator invocations an outcome records (none for the undefined access). -/
def ExecOutcome.calls : ExecOutcome → List AllToAllCall
  | .event _ calls => calls
  | .indexOutOfRange => []

/-- The single `AllToAll` invocation record built at the call site. -/
def mkCall (key : RendezvousKey) (shape : Shape) (data : OpDeviceMemory) : AllToAllCall :=
  ⟨key, ShapeUtil.ByteSizeOf shape, data.source.map DeviceMemoryBase.addr,
    data.destination.map DeviceMemoryBase.addr, DefaultCollectiveTimeout⟩

lemma execute_of_resolution_error {t : AllToAllThunk} {params : ExecuteParams}
    {e : XlaError} (h : GetOpDeviceMemory t params = .error e) :
    t.Execute params = .event (.failed e) [] := by
  simp [AllToAllThunk.Execute, h]

lemma execute_of_rendezvous_error {t : AllToAllThunk} {params : ExecuteParams}
    {data : OpDeviceMemory} {e : XlaError}
    (hres : GetOpDeviceMemory t params = .ok data)
    (hrdv : params.collective_params.rendezvous = .error e) :
    t.Execute params = .event (.failed e) [] := by
  simp [AllToAllThunk.Execute, ExecuteWithCommunicator, hres, hrdv]

lemma execute_of_shape_missing {t : AllToAllThunk} {params : ExecuteParams}
    {data : OpDeviceMemory} {key : RendezvousKey} {comm : CollectivesCommunicator}
    (hres : GetOpDeviceMemory t params = .ok data)
    (hrdv : params.collective_params.rendezvous = .ok (key, comm))
    (hshape : t.destinationShapeAt 0 = none) :
    t.Execute params = .indexOutOfRange := by
  simp [AllToAllThunk.Execute, ExecuteWithCommunicator, hres, hrdv, hshape]

lemma execute_of_comm_error {t : AllToAllThunk} {params : ExecuteParams}
    {data : OpDeviceMemory} {key : RendezvousKey} {comm : CollectivesCommunicator}
    {shape : Shape} {e : XlaError}
    (hres : GetOpDeviceMemory t params = .ok data)
    (hrdv : params.collective_params.rendezvous = .ok (key, comm))
    (hshape : t.destinationShapeAt 0 = some shape)
    (hcall : comm.allToAll key (ShapeUtil.ByteSizeOf shape)
        (data.source.map DeviceMemoryBase.addr)
        (data.destination.map DeviceMemoryBase.addr)
        DefaultCollectiveTimeout = .error e) :
    t.Execute params = .event (.failed e) [mkCall key shape data] := by
  simp [AllToAllThunk.Execute, ExecuteWithCommunicator, hres, hrdv, hshape, hcall, mkCall]

lemma execute_of_comm_ok {t : AllToAllThunk} {params : ExecuteParams}
    {data : OpDeviceMemory} {key : RendezvousKey} {comm : CollectivesCommunicator}
    {shape : Shape}
    (hres : GetOpDeviceMemory t params = .ok data)
    (hrdv : params.collective_params.rendezvous = .ok (key, comm))
    (hshape : t.destinationShapeAt 0 = some shape)
    (hcall : comm.allToAll key (ShapeUtil.ByteSizeOf shape)
        (data.source.map DeviceMemoryBase.addr)
        (data.destination.map DeviceMemoryBase.addr)
        DefaultCollectiveTimeout = .ok ()) :
    t.Execute params = .event .ok [mkCall key shape data] := by
  simp [AllToAllThunk.Execute, ExecuteWithCommunicator, hres, hrdv, hshape, hcall, mkCall]

/-- Soundness of the call log: any recorded communicator invocation is the unique one
built from a successful resolution, a successful rendezvous, and the first destination
shape. -/
lemma execute_calls_sound {t : AllToAllThunk} {params : ExecuteParams}
    {c : AllToAllCall} (hc : c ∈ (t.Execute params).calls) :
    ∃ data key comm shape,
      GetOpDeviceMemory t params = .ok data ∧
      params.collective_params.rendezvous = .ok (key, comm) ∧
      t.destinationShapeAt 0 = some shape ∧
      c = mkCall key shape data := by
  cases hres : GetOpDeviceMemory t params with
  | error e =>
      rw [execute_of_resolution_error hres] at hc
      simp [ExecOutcome.calls] at hc
  | ok data =>
      cases hrdv : params.collective_params.rendezvous with
      | error e =>
          rw [execute_of_rendezvous_error hres hrdv] at hc
          simp [ExecOutcome.calls] at hc
      | ok kc =>
          obtain ⟨key, comm⟩ := kc
          cases hshape : t.destinationShapeAt 0 with
          | none =>
              rw [execute_of_shape_missing hres hrdv hshape] at hc
              simp [ExecOutcome.calls] at hc
          | some shape =>
              refine ⟨data, key, comm, shape, rfl, rfl, rfl, ?_⟩
              cases hcall : comm.allToAll key (ShapeUtil.ByteSizeOf shape)
                  (data.source.map DeviceMemoryBase.addr)
                  (data.destination.map DeviceMemoryBase.addr)
                  DefaultCollectiveTimeout with
              | error e =>
                  rw [execute_of_comm_error hres hrdv hshape hcall] at hc
                  simpa [ExecOutcome.calls] using hc
              | ok u =>
                  rw [execute_of_comm_ok hres hrdv hshape hcall] at hc
                  simpa [ExecOutcome.calls] using hc

/-- The call log never holds more than one invocation. -/
lemma execute_calls_length (t : AllToAllThunk) (params : ExecuteParams) :
    (t.Execute params).calls.length ≤ 1 := by
  cases hres : GetOpDeviceMemory t params with
  | error e => rw [execute_of_resolution_error hres]; simp [ExecOutcome.calls]
  | ok data =>
      cases hrdv : params.collective_params.rendezvous with
      | error e => rw [execute_of_rendezvous_error hres hrdv]; simp [ExecOutcome.calls]
      | ok kc =>
          obtain ⟨key, comm⟩ := kc
          cases hshape : t.destinationShapeAt 0 with
          | none => rw [execute_of_shape_missing hres hrdv hshape]; simp [ExecOutcome.calls]
          | some shape =>
              cases hcall : comm.allToAll key (ShapeUtil.ByteSizeOf shape)
                  (data.source.map DeviceMemoryBase.addr)
                  (data.destination.map DeviceMemoryBase.addr)
                  DefaultCollectiveTimeout with
              | error e =>
                  rw [execute_of_comm_error hres hrdv hshape hcall]
                  simp [ExecOutcome.calls]
              | ok u =>
                  rw [execute_of_comm_ok hres hrdv hshape hcall]
                  simp [ExecOutcome.calls]

end XlaCpu

namespace XlaCpu

/-! ### Concrete fixtures used by witnesses and counterexamples -/

/-- An 8-byte element shape (2 elements of 4 bytes). -/
def shapeA : Shape := ⟨2, 4⟩

/-- A 12-byte element shape (3 elements of 4 bytes). -/
def shapeB : Shape := ⟨3, 4⟩

def sliceA : BufferSlice := ⟨0, 0, 8⟩

def sliceB : BufferSlice := ⟨0, 8, 8⟩

def sliceC : BufferSlice := ⟨0, 16, 12⟩

/-- Allocations that map every slice to the region at `1000 + offset`. -/
def allocOk : BufferAllocations := ⟨fun s => some ⟨1000 + s.offset⟩⟩

/-- Allocations under which every slice is unassigned. -/
def allocFail : BufferAllocations := ⟨fun _ => none⟩

def resolutionErr : XlaError := ⟨.resolution, "failed to resolve buffer slice"⟩

def timeoutErr : XlaError := ⟨.timeout, "collective timed out"⟩

def keyA : RendezvousKey := ⟨1, 1⟩

/-- A communicator whose `AllToAll` always succeeds. -/
def commOk : CollectivesCommunicator := ⟨fun _ _ _ _ _ => .ok ()⟩

/-- A communicator whose `AllToAll` reports a timeout. -/
def commTimeout : CollectivesCommunicator := ⟨fun _ _ _ _ _ => .error timeoutErr⟩

def infoA : Info := ⟨"all-to-all", "test_module", 0⟩

def opParamsA : OpParams := ⟨1, 0⟩

/-- Well-formed buffers: one 8-byte source, one 8-byte destination, equal shapes. -/
def opbufsA : OpBuffers := ⟨[sliceA], [shapeA], [sliceB], [shapeA]⟩

/-- Buffers whose two destination shapes disagree (8-byte and 12-byte). -/
def opbufsB : OpBuffers := ⟨[sliceA], [shapeB], [sliceB, sliceC], [shapeA, shapeB]⟩

/-- Malformed buffers with zero destination buffers. -/
def opbufsE : OpBuffers := ⟨[sliceA], [shapeA], [], []⟩

def thunkA : AllToAllThunk := ⟨infoA, opParamsA, opbufsA⟩

def thunkB : AllToAllThunk := ⟨infoA, opParamsA, opbufsB⟩

def thunkE : AllToAllThunk := ⟨infoA, opParamsA, opbufsE⟩

/-- Execution context with working allocations and a succeeding communicator. -/
def paramsOkA : ExecuteParams := ⟨allocOk, ⟨.ok (keyA, commOk)⟩⟩

/-- Execution context with working allocations and a timing-out communicator. -/
def paramsTimeoutA : ExecuteParams := ⟨allocOk, ⟨.ok (keyA, commTimeout)⟩⟩

/-- Execution context under which buffer resolution fails. -/
def paramsFailResolve : ExecuteParams := ⟨allocFail, ⟨.ok (keyA, commOk)⟩⟩

/-- The resolved device memory of `thunkA` under `allocOk`. -/
def dataA : OpDeviceMemory := ⟨[⟨1000⟩], [⟨1008⟩]⟩

/-- The resolved device memory of `thunkB` under `allocOk`. -/
def dataB : OpDeviceMemory := ⟨[⟨1000⟩], [⟨1008⟩, ⟨1016⟩]⟩

/-- The communicator invocation `thunkA` makes under `paramsOkA`. -/
def callA : AllToAllCall := ⟨keyA, 8, [1000], [1008], DefaultCollectiveTimeout⟩

/-- The communicator invocation `thunkB` makes under `paramsOkA`. -/
def callB : AllToAllCall := ⟨keyA, 8, [1000], [1008, 1016], DefaultCollectiveTimeout⟩

/-! ### Claims -/

/-- **C6.** For every `Info`, `OpParams` and `OpBuffers` argument triple, `Create`
returns a successfully constructed thunk binding the provided metadata; it never
returns an error and performs no effect beyond binding. -/
theorem create_always_succeeds (info : Info) (op_params : OpParams)
    (op_buffers : OpBuffers) :
    AllToAllThunk.Create info op_params op_buffers =
      .ok ⟨info, op_params, op_buffers⟩ := rfl

/-- **C1.** Whenever buffer resolution (`GetOpDeviceMemory`) fails, `Execute` returns
a failed event carrying the resolution error with an empty invocation log (the
communicator's `AllToAll` is never invoked), and the outcome is the same for every
collective-parameters value (so `ExecuteWithCommunicator` is never consulted). -/
theorem resolution_failure_fails_event_without_comm (t : AllToAllThunk)
    (params : ExecuteParams) (e : XlaError)
    (h : GetOpDeviceMemory t params = .error e) :
    t.Execute params = .event (.failed e) [] ∧
    ∀ cp : CollectiveExecuteParams,
      t.Execute ⟨params.buffer_allocations, cp⟩ = .event (.failed e) [] := by
  refine ⟨execute_of_resolution_error h, fun cp => ?_⟩
  have h' : GetOpDeviceMemory t ⟨params.buffer_allocations, cp⟩ = .error e := h
  exact execute_of_resolution_error h'

/-- Witness for C1: a thunk and context under which every slice is unassigned. -/
theorem resolution_failure_fails_event_without_comm_witness :
    GetOpDeviceMemory thunkA paramsFailResolve = .error resolutionErr ∧
    (thunkA.Execute paramsFailResolve = .event (.failed resolutionErr) [] ∧
     ∀ cp : CollectiveExecuteParams,
       thunkA.Execute ⟨paramsFailResolve.buffer_allocations, cp⟩ =
         .event (.failed resolutionErr) []) :=
  ⟨by decide,
   resolution_failure_fails_event_without_comm thunkA paramsFailResolve resolutionErr
     (by decide)⟩

/-- **C4.** The communicator's `AllToAll` is invoked at most once per `Execute` call
(no retry inside the thunk), and any error it returns is propagated unchanged into the
returned event's failure state. -/
theorem comm_called_once_and_error_propagated :
    (∀ (t : AllToAllThunk) (params : ExecuteParams),
        (t.Execute params).calls.length ≤ 1) ∧
    (∀ (t : AllToAllThunk) (params : ExecuteParams) (data : OpDeviceMemory)
        (key : RendezvousKey) (comm : CollectivesCommunicator) (shape : Shape)
        (e : XlaError),
        GetOpDeviceMemory t params = .ok data →
        params.collective_params.rendezvous = .ok (key, comm) →
        t.destinationShapeAt 0 = some shape →
        comm.allToAll key (ShapeUtil.ByteSizeOf shape)
            (data.source.map DeviceMemoryBase.addr)
            (data.destination.map DeviceMemoryBase.addr)
            DefaultCollectiveTimeout = .error e →
        t.Execute params = .event (.failed e) [mkCall key shape data]) :=
  ⟨execute_calls_length,
   fun _ _ _ _ _ _ _ hres hrdv hshape hcall =>
     execute_of_comm_error hres hrdv hshape hcall⟩

/-- Witness for C4: a timing-out communicator; its timeout error reaches the event
verbatim after exactly one invocation. -/
theorem comm_called_once_and_error_propagated_witness :
    GetOpDeviceMemory thunkA paramsTimeoutA = .ok dataA ∧
    commTimeout.allToAll keyA (ShapeUtil.ByteSizeOf shapeA)
      (dataA.source.map DeviceMemoryBase.addr)
      (dataA.destination.map DeviceMemoryBase.addr)
      DefaultCollectiveTimeout = .error timeoutErr ∧
    (thunkA.Execute paramsTimeoutA).calls.length ≤ 1 ∧
    thunkA.Execute paramsTimeoutA =
      .event (.failed timeoutErr) [mkCall keyA shapeA dataA] :=
  ⟨by decide, rfl,
   comm_called_once_and_error_propagated.1 thunkA paramsTimeoutA,
   comm_called_once_and_error_propagated.2 thunkA paramsTimeoutA dataA keyA commTimeout
     shapeA timeoutErr (by decide) rfl rfl rfl⟩

/-- **C5.** Every invocation of `AllToAll` the thunk makes carries the fixed default
collective timeout; no thunk or execution context can produce a different value. -/
theorem timeout_is_default (t : AllToAllThunk) (params : ExecuteParams)
    (c : AllToAllCall) (hc : c ∈ (t.Execute params).calls) :
    c.timeout = DefaultCollectiveTimeout := by
  obtain ⟨data, key, comm, shape, -, -, -, rfl⟩ := execute_calls_sound hc
  rfl

/-- Witness for C5: the invocation made by `thunkA` under `paramsOkA` carries the
default timeout. -/
theorem timeout_is_default_witness :
    callA ∈ (thunkA.Execute paramsOkA).calls ∧
    callA.timeout = DefaultCollectiveTimeout :=
  ⟨by decide, timeout_is_default thunkA paramsOkA callA (by decide)⟩

/-- **C8.** `Create` is deterministic: two thunks created from identical arguments have
identical `Execute` behavior on any execution context. -/
theorem create_twice_same_execute (info : Info) (op : OpParams) (ob : OpBuffers)
    (t₁ t₂ : AllToAllThunk) (params : ExecuteParams)
    (h₁ : AllToAllThunk.Create info op ob = .ok t₁)
    (h₂ : AllToAllThunk.Create info op ob = .ok t₂) :
    t₁.Execute params = t₂.Execute params := by
  rw [h₁] at h₂
  injection h₂ with h
  rw [h]

/-- Witness for C8: two creations from the fixture arguments. -/
theorem create_twice_same_execute_witness :
    AllToAllThunk.Create infoA opParamsA opbufsA = .ok thunkA ∧
    thunkA.Execute paramsOkA = thunkA.Execute paramsOkA :=
  ⟨by decide,
   create_twice_same_execute infoA opParamsA opbufsA thunkA thunkA paramsOkA
     (by decide) (by decide)⟩

/-- **C9.** Whenever `Execute` reaches the communicator, the pointer lists passed to
`AllToAll` are exactly the resolved source and destination memory regions in operand
order (entry `i` is resolved operand `i`), under the rendezvous key supplied by the
collective base. -/
theorem pointers_in_operand_order (t : AllToAllThunk) (params : ExecuteParams)
    (data : OpDeviceMemory) (key : RendezvousKey) (comm : CollectivesCommunicator)
    (shape : Shape)
    (hres : GetOpDeviceMemory t params = .ok data)
    (hrdv : params.collective_params.rendezvous = .ok (key, comm))
    (hshape : t.destinationShapeAt 0 = some shape) :
    (∃ ev, t.Execute params = .event ev [mkCall key shape data]) ∧
    (mkCall key shape data).key = key ∧
    (∀ i : Nat, (mkCall key shape data).input_buffers.get? i =
        (data.source.get? i).map DeviceMemoryBase.addr) ∧
    (∀ i : Nat, (mkCall key shape data).output_buffers.get? i =
        (data.destination.get? i).map DeviceMemoryBase.addr) := by
  refine ⟨?_, rfl, ?_, ?_⟩
  · cases hcall : comm.allToAll key (ShapeUtil.ByteSizeOf shape)
        (data.source.map DeviceMemoryBase.addr)
        (data.destination.map DeviceMemoryBase.addr) DefaultCollectiveTimeout with
    | error e => exact ⟨.failed e, execute_of_comm_error hres hrdv hshape hcall⟩
    | ok u => exact ⟨.ok, execute_of_comm_ok hres hrdv hshape hcall⟩
  · intro i; simp [mkCall, List.get?_map]
  · intro i; simp [mkCall, List.get?_map]

/-- Witness for C9: the invocation of `thunkA` under `paramsOkA`. -/
theorem pointers_in_operand_order_witness :
    GetOpDeviceMemory thunkA paramsOkA = .ok dataA ∧
    ((∃ ev, thunkA.Execute paramsOkA = .event ev [mkCall keyA shapeA dataA]) ∧
     (mkCall keyA shapeA dataA).key = keyA ∧
     (∀ i : Nat, (mkCall keyA shapeA dataA).input_buffers.get? i =
         (dataA.source.get? i).map DeviceMemoryBase.addr) ∧
     (∀ i : Nat, (mkCall keyA shapeA dataA).output_buffers.get? i =
         (dataA.destination.get? i).map DeviceMemoryBase.addr)) :=
  ⟨by decide,
   pointers_in_operand_order thunkA paramsOkA dataA keyA commOk shapeA
     (by decide) rfl rfl⟩

/-- **C10.** The byte size passed to `AllToAll` is computed solely from destination
shape 0: every recorded invocation's byte size is the byte size of the first
destination shape, and two thunks agreeing on that shape pass equal byte sizes
regardless of all their other shapes. -/
theorem byte_size_from_first_destination_shape_only :
    (∀ (t : AllToAllThunk) (params : ExecuteParams) (c : AllToAllCall),
        c ∈ (t.Execute params).calls →
        ∃ shape, t.destinationShapeAt 0 = some shape ∧
          c.byteSize = ShapeUtil.ByteSizeOf shape) ∧
    (∀ (t t' : AllToAllThunk) (params params' : ExecuteParams)
        (c c' : AllToAllCall),
        t.destinationShapeAt 0 = t'.destinationShapeAt 0 →
        c ∈ (t.Execute params).calls →
        c' ∈ (t'.Execute params').calls →
        c.byteSize = c'.byteSize) := by
  constructor
  · intro t params c hc
    obtain ⟨data, key, comm, shape, -, -, hshape, rfl⟩ := execute_calls_sound hc
    exact ⟨shape, hshape, rfl⟩
  · intro t t' params params' c c' hsh hc hc'
    obtain ⟨d₁, k₁, m₁, s₁, -, -, h₁, rfl⟩ := execute_calls_sound hc
    obtain ⟨d₂, k₂, m₂, s₂, -, -, h₂, rfl⟩ := execute_calls_sound hc'
    rw [hsh, h₂] at h₁
    injection h₁ with h
    rw [h]
    rfl

/-- Witness for C10: `thunkA` and `thunkB` differ in their source shapes and in every
destination shape after index 0, yet their invocations carry equal byte sizes. -/
theorem byte_size_from_first_destination_shape_only_witness :
    callA ∈ (thunkA.Execute paramsOkA).calls ∧
    callB ∈ (thunkB.Execute paramsOkA).calls ∧
    thunkA.op_buffers.source_shapes ≠ thunkB.op_buffers.source_shapes ∧
    thunkA.op_buffers.destination_shapes ≠ thunkB.op_buffers.destination_shapes ∧
    callA.byteSize = callB.byteSize :=
  ⟨by decide, by decide, by decide, by decide,
   byte_size_from_first_destination_shape_only.2 thunkA thunkB paramsOkA paramsOkA
     callA callB rfl (by decide) (by decide)⟩

/-- **C2** (counterexample). For the malformed `OpBuffers` with zero destination
buffers, `Create` succeeds, resolution on the first `Execute` succeeds as well, and
`Execute` reaches the out-of-range access of the first destination shape (an undefined
outcome) instead of failing deterministically with a resolution/validation error. -/
theorem zero_destinations_counterexample :
    AllToAllThunk.Create infoA opParamsA opbufsE = .ok thunkE ∧
    GetOpDeviceMemory thunkE paramsOkA = .ok ⟨[⟨1000⟩], []⟩ ∧
    thunkE.Execute paramsOkA = .indexOutOfRange := by
  refine ⟨by decide, by decide, ?_⟩
  exact @execute_of_shape_missing thunkE paramsOkA ⟨[⟨1000⟩], []⟩ keyA commOk
    (by decide) rfl rfl

/-- **C2** (amended). For `OpBuffers` with zero destination buffers, `Create` still
succeeds, and once buffer resolution and group formation succeed, the first `Execute`
reaches the unguarded out-of-range access of the first destination shape — an
undefined outcome, neither a deterministic resolution/validation error nor a silent
no-op success. -/
theorem zero_destinations_amended (info : Info) (op : OpParams)
    (sb : List BufferSlice) (ss : List Shape) (t : AllToAllThunk)
    (hcreate : AllToAllThunk.Create info op ⟨sb, ss, [], []⟩ = .ok t)
    (params : ExecuteParams) (data : OpDeviceMemory) (key : RendezvousKey)
    (comm : CollectivesCommunicator)
    (hres : GetOpDeviceMemory t params = .ok data)
    (hrdv : params.collective_params.rendezvous = .ok (key, comm)) :
    t.Execute params = .indexOutOfRange := by
  have h' : (Except.ok (AllToAllThunk.mk info op ⟨sb, ss, [], []⟩) :
      Except XlaError AllToAllThunk) = .ok t := hcreate
  injection h' with h
  have hshape : t.destinationShapeAt 0 = none := by
    rw [← h]
    rfl
  exact execute_of_shape_missing hres hrdv hshape

/-- Witness for the amended C2, at the concrete malformed fixture. -/
theorem zero_destinations_amended_witness :
    AllToAllThunk.Create infoA opParamsA ⟨[sliceA], [shapeA], [], []⟩ = .ok thunkE ∧
    GetOpDeviceMemory thunkE paramsOkA =
      .ok (⟨[⟨1000⟩], []⟩ : OpDeviceMemory) ∧
    paramsOkA.collective_params.rendezvous = .ok (keyA, commOk) ∧
    thunkE.Execute paramsOkA = .indexOutOfRange :=
  ⟨by decide, by decide, rfl,
   zero_destinations_amended infoA opParamsA [sliceA] [shapeA] thunkE (by decide)
     paramsOkA ⟨[⟨1000⟩], []⟩ keyA commOk (by decide) rfl⟩

/-- **C3** (counterexample). With two destination shapes of different byte sizes,
resolution succeeds and the call proceeds with the byte size of shape 0 only, while
destination buffer 1 carries a different per-participant byte size. -/
theorem nonuniform_byte_size_counterexample :
    GetOpDeviceMemory thunkB paramsOkA = .ok dataB ∧
    thunkB.Execute paramsOkA = .event .ok [callB] ∧
    thunkB.destinationShapeAt 1 = some shapeB ∧
    ShapeUtil.ByteSizeOf shapeB ≠ callB.byteSize := by
  refine ⟨by decide, ?_, by decide, by decide⟩
  exact @execute_of_comm_ok thunkB paramsOkA dataB keyA commOk shapeA
    (by decide) rfl rfl rfl

/-- **C3** (amended). The byte size passed to `AllToAll` is the byte size of
destination shape 0; under the uniformity assumption that every destination shape
equals shape 0, every destination buffer carries that same per-participant byte size.
Uniformity is assumed by the code, not checked. -/
theorem byte_size_matches_uniform_destinations (t : AllToAllThunk)
    (params : ExecuteParams) (c : AllToAllCall)
    (hc : c ∈ (t.Execute params).calls)
    (huniform : ∀ s ∈ t.op_buffers.destination_shapes,
        t.destinationShapeAt 0 = some s) :
    (∃ shape, t.destinationShapeAt 0 = some shape ∧
        c.byteSize = ShapeUtil.ByteSizeOf shape) ∧
    (∀ i s, t.destinationShapeAt i = some s →
        ShapeUtil.ByteSizeOf s = c.byteSize) := by
  obtain ⟨data, key, comm, shape, -, -, hshape, rfl⟩ := execute_calls_sound hc
  refine ⟨⟨shape, hshape, rfl⟩, ?_⟩
  intro i s hi
  have hs : s ∈ t.op_buffers.destination_shapes := List.get?_mem hi
  have h0 := huniform s hs
  rw [hshape] at h0
  injection h0 with h
  rw [← h]
  rfl

/-- Witness for the amended C3: `thunkA` has uniform destination shapes. -/
theorem byte_size_matches_uniform_destinations_witness :
    callA ∈ (thunkA.Execute paramsOkA).calls ∧
    (∀ s ∈ thunkA.op_buffers.destination_shapes,
        thunkA.destinationShapeAt 0 = some s) ∧
    ((∃ shape, thunkA.destinationShapeAt 0 = some shape ∧
        callA.byteSize = ShapeUtil.ByteSizeOf shape) ∧
     (∀ i s, thunkA.destinationShapeAt i = some s →
        ShapeUtil.ByteSizeOf s = callA.byteSize)) :=
  ⟨by decide, by decide,
   byte_size_matches_uniform_destinations thunkA paramsOkA callA (by decide)
     (by decide)⟩

/-! ### The communicator's exchange semantics

The communicator implementation is an external collaborator of the fragment; its
delivery rule is modelled from the spec and the transpose property is settled against
that model. -/

/-- One point-to-point delivery of the exchange: the sending participant, the
receiving participant, and the payload bytes. -/
structure ExchangeMessage where
  sender : Nat
  receiver : Nat
  payload : List Nat
deriving DecidableEq

/-- Modelled from the spec: the communicator's send side (not part of the fragment).
Every participant supplies exactly one source buffer per destination participant:
participant `p`'s source buffer at index `i` is sent to participant `i`, tagged with
its sender `p`. -/
def sentMessages (n : Nat) (src : Nat → Nat → List Nat) : List ExchangeMessage :=
  (List.range n).flatMap fun p => (List.range n).map fun i => ⟨p, i, src p i⟩

/-- Modelled from the spec: the communicator's receive side (not part of the
fragment). Participant `q` fills destination slot `j` with the payload of the message
sent to `q` by participant `j`. -/
def receivedBuffer (msgs : List ExchangeMessage) (q j : Nat) : Option (List Nat) :=
  (msgs.find? fun m => m.receiver == q && m.sender == j).map ExchangeMessage.payload

/-- Modelled from the spec: the communicator's `AllToAll` exchange among `n`
participants, giving destination buffer `j` of participant `q` after the exchange. -/
def allToAllExchange (n : Nat) (src : Nat → Nat → List Nat) (q j : Nat) :
    Option (List Nat) :=
  receivedBuffer (sentMessages n src) q j

lemma find?_flatMap_none {α β : Type} (l : List α) (f : α → List β) (p : β → Bool)
    (h : ∀ a ∈ l, (f a).find? p = none) : (l.flatMap f).find? p = none := by
  rw [List.find?_eq_none]
  intro x hx
  rw [List.mem_flatMap] at hx
  obtain ⟨a, ha, hxa⟩ := hx
  exact List.find?_eq_none.mp (h a ha) x hxa

lemma find?_flatMap_eq {α β : Type} (l : List α) (f : α → List β) (p : β → Bool)
    (j : α) (hmem : j ∈ l) (hnone : ∀ a, a ≠ j → (f a).find? p = none) :
    (l.flatMap f).find? p = (f j).find? p := by
  induction l with
  | nil => cases hmem
  | cons a l ih =>
    rw [List.flatMap_cons, List.find?_append]
    by_cases haj : a = j
    · subst haj
      cases hfa : (f a).find? p with
      | some x => rfl
      | none =>
        rw [Option.none_or]
        refine find?_flatMap_none l f p fun b hb => ?_
        by_cases hbj : b = a
        · rw [hbj]; exact hfa
        · exact hnone b hbj
    · rw [hnone a haj, Option.none_or]
      rcases List.mem_cons.mp hmem with h | h
      · exact absurd h.symm haj
      · exact ih h

lemma find?_block_of_ne (l : List Nat) (q j p : Nat) (src : Nat → Nat → List Nat)
    (hpj : p ≠ j) :
    ((l.map fun i => ExchangeMessage.mk p i (src p i)).find?
        fun m => m.receiver == q && m.sender == j) = none := by
  rw [List.find?_eq_none]
  intro x hx
  rw [List.mem_map] at hx
  obtain ⟨i, -, rfl⟩ := hx
  simp [hpj]

lemma find?_block_self (l : List Nat) (q j : Nat) (src : Nat → Nat → List Nat)
    (hq : q ∈ l) :
    ((l.map fun i => ExchangeMessage.mk j i (src j i)).find?
        fun m => m.receiver == q && m.sender == j) = some ⟨j, q, src j q⟩ := by
  induction l with
  | nil => cases hq
  | cons a l ih =>
    rw [List.map_cons]
    by_cases haq : a = q
    · subst haq
      rw [List.find?_cons_of_pos _ (by simp)]
    · rw [List.find?_cons_of_neg _ (by simp [haq])]
      rcases List.mem_cons.mp hq with h | h
      · exact absurd h.symm haq
      · exact ih h

lemma sentMessages_find (n : Nat) (src : Nat → Nat → List Nat) (q j : Nat)
    (hq : q < n) (hj : j < n) :
    ((sentMessages n src).find? fun m => m.receiver == q && m.sender == j) =
      some ⟨j, q, src j q⟩ := by
  unfold sentMessages
  rw [find?_flatMap_eq (List.range n) _ _ j (List.mem_range.mpr hj)
      fun a ha => find?_block_of_ne (List.range n) q j a src ha]
  exact find?_block_self (List.range n) q j src (List.mem_range.mpr hq)

/-- **C7.** After a successful exchange among `n` participants, destination buffer `j`
of participant `q` contains exactly the bytes that were in source buffer `q` of
participant `j` — the full matrix transpose of per-participant contributions. -/
theorem exchange_transpose (n : Nat) (src : Nat → Nat → List Nat) (q j : Nat)
    (hq : q < n) (hj : j < n) :
    allToAllExchange n src q j = some (src j q) := by
  unfold allToAllExchange receivedBuffer
  rw [sentMessages_find n src q j hq hj]
  rfl

/-- Source contents for the two-participant witness scenario: participant `p`'s buffer
`i` holds the single byte `10 * p + i`. -/
def srcEx : Nat → Nat → List Nat := fun p i => [10 * p + i]

/-- Witness for C7: the spec's two-participant scenario; participant 0's slot 1 ends
up with participant 1's buffer 0, and symmetrically. -/
theorem exchange_transpose_witness :
    (0 : Nat) < 2 ∧ (1 : Nat) < 2 ∧
    allToAllExchange 2 srcEx 0 1 = some (srcEx 1 0) :=
  ⟨by decide, by decide, exchange_transpose 2 srcEx 0 1 (by decide) (by decide)⟩

end XlaCpu
